import Mathlib

/-!
Verification development for the Bioenergybuild calculation engine.

The Python modules `feedstock_data.py`, `process_calculations.py` and
`financial_calculations.py` are shallowly embedded below.  Machine floats are
modelled as exact rationals; the IEEE non-finite values that numpy/pandas
produce on division by zero are modelled explicitly by the `PyNum` sum type
(scalar Python division would raise, but these columns are numpy-backed, where
`0/0 = nan` and `x/0 = ±inf`).  Python dictionaries of named costs are
modelled as ordered association lists over `String`.
-/

namespace Bioenergy

/-- A numpy floating-point value: either a finite (exact) rational, or one of
the non-finite values produced by dividing by zero. -/
inductive PyNum where
  | fin : ℚ → PyNum
  | posInf : PyNum
  | negInf : PyNum
  | nan : PyNum
deriving DecidableEq

/-- numpy division of finite values: `0/0 = nan`, `x/0 = ±inf`, else exact. -/
def pydiv (x y : ℚ) : PyNum :=
  if y = 0 then
    if x = 0 then PyNum.nan
    else if 0 < x then PyNum.posInf
    else PyNum.negInf
  else PyNum.fin (x / y)

/-- numpy multiplication of a possibly non-finite value by a finite scalar. -/
def pymul : PyNum → ℚ → PyNum
  | PyNum.fin x, c => PyNum.fin (x * c)
  | PyNum.nan, _ => PyNum.nan
  | PyNum.posInf, c =>
      if 0 < c then PyNum.posInf else if c < 0 then PyNum.negInf else PyNum.nan
  | PyNum.negInf, c =>
      if 0 < c then PyNum.negInf else if c < 0 then PyNum.posInf else PyNum.nan

/-- One row of the feedstock table (`feedstock_data.py`, input columns). -/
structure Feedstock where
  quantity : ℚ
  ts : ℚ
  vs : ℚ
  bmp : ℚ
  ch4 : ℚ
  tkn : ℚ
  tan : ℚ
  distance : ℚ
  cost_per_tonne : ℚ

/-- `df['vs_tonnes'] = df['quantity'] * (df['ts'] / 100) * (df['vs'] / 100)` -/
def vs_tonnes (f : Feedstock) : ℚ := f.quantity * (f.ts / 100) * (f.vs / 100)

/-- `df['biogas_yield'] = df['vs_tonnes'] * df['bmp']` -/
def biogas_yield (f : Feedstock) : ℚ := vs_tonnes f * f.bmp

/-- `df['methane_yield'] = df['biogas_yield'] * (df['ch4'] / 100)` -/
def methane_yield (f : Feedstock) : ℚ := biogas_yield f * (f.ch4 / 100)

/-- `df['energy_content_kwh'] = df['methane_yield'] * 9.97` -/
def energy_content_kwh (f : Feedstock) : ℚ := methane_yield f * (997 / 100)

/-- `df['energy_content_gj'] = df['energy_content_kwh'] * 0.0036` -/
def energy_content_gj (f : Feedstock) : ℚ := energy_content_kwh f * (36 / 10000)

/-- `df['transport_cost'] = df['quantity'] * df['distance'] * 0.1` -/
def transport_cost (f : Feedstock) : ℚ := f.quantity * f.distance * (1 / 10)

/-- `df['feedstock_cost'] = df['quantity'] * df['cost_per_tonne']` -/
def feedstock_cost (f : Feedstock) : ℚ := f.quantity * f.cost_per_tonne

/-- `df['total_cost'] = df['transport_cost'] + df['feedstock_cost']` -/
def total_cost (f : Feedstock) : ℚ := transport_cost f + feedstock_cost f

/-- `df['cost_per_gj'] = df['total_cost'] / df['energy_content_gj']`
(unguarded numpy column division in `calculate_biogas_yield`). -/
def cost_per_gj (f : Feedstock) : PyNum := pydiv (total_cost f) (energy_content_gj f)

/-- `df['cost_per_mwh'] = df['cost_per_gj'] * 3.6` -/
def cost_per_mwh (f : Feedstock) : PyNum := pymul (cost_per_gj f) (36 / 10)

/-- The dictionary returned by `get_total_metrics`. -/
structure Totals where
  total_quantity : ℚ
  total_vs_tonnes : ℚ
  total_biogas_yield : ℚ
  total_methane_yield : ℚ
  total_energy_content_gj : ℚ
  total_transport_cost : ℚ
  total_feedstock_cost : ℚ
  total_cost : ℚ
  avg_cost_per_gj : ℚ
  avg_cost_per_mwh : ℚ
  biogas_output_nm3h : ℚ
deriving DecidableEq

/-- `get_total_metrics` from `feedstock_data.py`: column sums over the
(computed) feedstock table, guarded weighted-average cost, and the
hourly biogas output rate. -/
def get_total_metrics (rows : List Feedstock) : Totals :=
  let tq := (rows.map fun f => f.quantity).sum
  let tvs := (rows.map vs_tonnes).sum
  let tbg := (rows.map biogas_yield).sum
  let tmy := (rows.map methane_yield).sum
  let tegj := (rows.map energy_content_gj).sum
  let ttc := (rows.map transport_cost).sum
  let tfc := (rows.map feedstock_cost).sum
  let tc := (rows.map total_cost).sum
  { total_quantity := tq
    total_vs_tonnes := tvs
    total_biogas_yield := tbg
    total_methane_yield := tmy
    total_energy_content_gj := tegj
    total_transport_cost := ttc
    total_feedstock_cost := tfc
    total_cost := tc
    avg_cost_per_gj := if 0 < tegj then tc / tegj else 0
    avg_cost_per_mwh := if 0 < tegj then tc / tegj * (36 / 10) else 0
    biogas_output_nm3h := tbg / 8760 }

/-- C1 counterexample: the Meat feedstock row with its BMP set to 0 has zero
computed energy content but positive total cost, and `calculate_biogas_yield`
reports its `cost_per_gj` as `+inf`, not as `0`. -/
theorem cost_per_gj_zero_energy_counterexample :
    energy_content_gj ⟨2622, 32, 92, 0, 60, 275 / 100, 171 / 10, 50, 20⟩ = 0 ∧
    cost_per_gj ⟨2622, 32, 92, 0, 60, 275 / 100, 171 / 10, 50, 20⟩ = PyNum.posInf ∧
    cost_per_mwh ⟨2622, 32, 92, 0, 60, 275 / 100, 171 / 10, 50, 20⟩ = PyNum.posInf ∧
    PyNum.posInf ≠ PyNum.fin 0 := by
  refine ⟨by norm_num [energy_content_gj, energy_content_kwh, methane_yield,
    biogas_yield, vs_tonnes], ?_, ?_, by decide⟩ <;>
  · norm_num [cost_per_mwh, cost_per_gj, pydiv, pymul, energy_content_gj,
      energy_content_kwh, methane_yield, biogas_yield, vs_tonnes, total_cost,
      transport_cost, feedstock_cost]

/-- C1 (amended): for a feedstock row whose computed energy content is zero,
`calculate_biogas_yield` does not raise, but reports `cost_per_gj` and
`cost_per_mwh` as NaN when the row's total cost is zero and as `±inf`
otherwise — never as the finite value 0. -/
theorem cost_per_gj_zero_energy (f : Feedstock) (h : energy_content_gj f = 0) :
    (cost_per_gj f =
      if total_cost f = 0 then PyNum.nan
      else if 0 < total_cost f then PyNum.posInf else PyNum.negInf) ∧
    (cost_per_mwh f =
      if total_cost f = 0 then PyNum.nan
      else if 0 < total_cost f then PyNum.posInf else PyNum.negInf) := by
  have hg : cost_per_gj f =
      if total_cost f = 0 then PyNum.nan
      else if 0 < total_cost f then PyNum.posInf else PyNum.negInf := by
    rw [cost_per_gj, h, pydiv, if_pos rfl]
  refine ⟨hg, ?_⟩
  rw [cost_per_mwh, hg]
  by_cases h0 : total_cost f = 0
  · simp [h0, pymul]
  · by_cases h1 : 0 < total_cost f
    · simp [h0, h1, pymul]
    · simp [h0, h1, pymul]

/-- C1 witness: the counterexample row instantiates the amended claim. -/
theorem cost_per_gj_zero_energy_witness :
    energy_content_gj ⟨2622, 32, 92, 0, 60, 275 / 100, 171 / 10, 50, 20⟩ = 0 ∧
    (cost_per_gj ⟨2622, 32, 92, 0, 60, 275 / 100, 171 / 10, 50, 20⟩ =
      if total_cost ⟨2622, 32, 92, 0, 60, 275 / 100, 171 / 10, 50, 20⟩ = 0 then PyNum.nan
      else if 0 < total_cost ⟨2622, 32, 92, 0, 60, 275 / 100, 171 / 10, 50, 20⟩ then
        PyNum.posInf else PyNum.negInf) ∧
    (cost_per_mwh ⟨2622, 32, 92, 0, 60, 275 / 100, 171 / 10, 50, 20⟩ =
      if total_cost ⟨2622, 32, 92, 0, 60, 275 / 100, 171 / 10, 50, 20⟩ = 0 then PyNum.nan
      else if 0 < total_cost ⟨2622, 32, 92, 0, 60, 275 / 100, 171 / 10, 50, 20⟩ then
        PyNum.posInf else PyNum.negInf) :=
  ⟨by norm_num [energy_content_gj, energy_content_kwh, methane_yield, biogas_yield, vs_tonnes],
   cost_per_gj_zero_energy _ (by norm_num [energy_content_gj, energy_content_kwh,
     methane_yield, biogas_yield, vs_tonnes])⟩

/-- C7: aggregating an empty feedstock set with `get_total_metrics` returns
all-zero totals (including the weighted-average costs), with no division by
zero and no exception. -/
theorem get_total_metrics_empty :
    get_total_metrics [] = ⟨0, 0, 0, 0, 0, 0, 0, 0, 0, 0, 0⟩ := by
  norm_num [get_total_metrics, Totals.mk.injEq]

/-! ## Cost model (`financial_calculations.py`) -/

/-- A Python dict of named dollar amounts, as an ordered association list. -/
abbrev CostDict := List (String × ℚ)

/-- Python `d[k]`.  Every call site in the repository passes a dict containing
the key; the missing-key case (a `KeyError` in Python) is modelled as 0. -/
def dictGet (d : CostDict) (k : String) : ℚ :=
  match d.find? fun p => p.1 == k with
  | some p => p.2
  | none => 0

/-- The sum of the values of all entries whose key differs from `k`. -/
def sumOthers (d : CostDict) (k : String) : ℚ :=
  ((d.filter fun p => !(p.1 == k)).map Prod.snd).sum

/-- `calculate_capex` from `financial_calculations.py`. -/
def calculate_capex (digester_volume : ℚ) (output_type : String)
    (chp_capacity : ℚ) : CostDict :=
  let digester_cost := digester_volume * 500
  let reception_cost := 15 / 100 * digester_cost
  let biogas_handling_cost := 1 / 10 * digester_cost
  let digestate_handling_cost := 12 / 100 * digester_cost
  let control_systems_cost := 8 / 100 * digester_cost
  let output_specific_cost :=
    if output_type == "biogas" then digester_volume * (15 / 10) / 8760 * 10000
    else chp_capacity * 1500
  let output_specific_name :=
    if output_type == "biogas" then "Biogas Upgrading System" else "CHP System"
  let epc_cost := 15 / 100 * (digester_cost + reception_cost + biogas_handling_cost +
    digestate_handling_cost + control_systems_cost + output_specific_cost)
  let contingency := 1 / 10 * (digester_cost + reception_cost + biogas_handling_cost +
    digestate_handling_cost + control_systems_cost + output_specific_cost + epc_cost)
  let total_capex := digester_cost + reception_cost + biogas_handling_cost +
    digestate_handling_cost + control_systems_cost + output_specific_cost +
    epc_cost + contingency
  [("Digester System", digester_cost),
   ("Reception and Pre-treatment", reception_cost),
   ("Biogas Handling", biogas_handling_cost),
   ("Digestate Handling", digestate_handling_cost),
   ("Control Systems", control_systems_cost),
   (output_specific_name, output_specific_cost),
   ("EPC Costs", epc_cost),
   ("Contingency", contingency),
   ("Total CAPEX", total_capex)]

/-- `calculate_opex` from `financial_calculations.py`. -/
def calculate_opex (total_feedstock digester_volume : ℚ) (output_type : String)
    (capex : CostDict) (chp_capacity : ℚ) : CostDict :=
  let maintenance_cost := 3 / 100 * dictGet capex "Total CAPEX"
  let labor_cost : ℚ :=
    if digester_volume < 2000 then 150000
    else if digester_volume < 5000 then 250000
    else 350000
  let consumables_cost := total_feedstock * (25 / 10)
  let insurance_cost := 1 / 100 * dictGet capex "Total CAPEX"
  let output_specific_cost :=
    if output_type == "biogas" then 5 / 100 * dictGet capex "Biogas Upgrading System"
    else chp_capacity * 8000 * (2 / 100)
  let output_specific_name :=
    if output_type == "biogas" then "Biogas Upgrading O&M" else "CHP Maintenance"
  let utilities_cost := digester_volume * 15
  let total_opex := maintenance_cost + labor_cost + consumables_cost +
    insurance_cost + output_specific_cost + utilities_cost
  [("Maintenance", maintenance_cost),
   ("Labor", labor_cost),
   ("Consumables", consumables_cost),
   ("Insurance", insurance_cost),
   (output_specific_name, output_specific_cost),
   ("Utilities", utilities_cost),
   ("Total OPEX", total_opex)]

/-- C2: in every CAPEX breakdown the `Total CAPEX` entry equals the sum of all
other entries, and in every OPEX breakdown the `Total OPEX` entry equals the
sum of all other entries — for all digester volumes, pathways, CHP capacities,
feedstock totals and CAPEX dicts (in particular for all digester_volume ≥ 0,
pathway ∈ (biogas, chp), chp_capacity ≥ 0). -/
theorem capex_opex_total_eq_sum (digester_volume output_type_dv chp_capacity
    total_feedstock : ℚ) (output_type : String) (capex : CostDict) :
    dictGet (calculate_capex digester_volume output_type chp_capacity)
        "Total CAPEX" =
      sumOthers (calculate_capex digester_volume output_type chp_capacity)
        "Total CAPEX" ∧
    dictGet (calculate_opex total_feedstock output_type_dv output_type capex
        chp_capacity) "Total OPEX" =
      sumOthers (calculate_opex total_feedstock output_type_dv output_type capex
        chp_capacity) "Total OPEX" := by
  constructor
  · cases h : output_type == "biogas" <;>
      simp [calculate_capex, dictGet, sumOthers, h, List.find?, List.filter] <;> ring
  · cases h : output_type == "biogas" <;>
      simp [calculate_opex, dictGet, sumOthers, h, List.find?, List.filter] <;> ring

/-- `calculate_lcoe` from `financial_calculations.py`. -/
def calculate_lcoe (capex opex : CostDict) (annual_energy_output : ℚ)
    (project_lifetime : ℕ) (discount_rate : ℚ) : ℚ :=
  if annual_energy_output ≤ 0 then 0
  else
    let total_capex := dictGet capex "Total CAPEX"
    let annual_opex := dictGet opex "Total OPEX"
    let pv_costs := total_capex +
      ∑ year ∈ Finset.Icc 1 project_lifetime, annual_opex / (1 + discount_rate) ^ year
    let pv_energy :=
      ∑ year ∈ Finset.Icc 1 project_lifetime,
        annual_energy_output / (1 + discount_rate) ^ year
    if 0 < pv_energy then pv_costs / pv_energy else 0

/-- C8: whenever `annual_energy_output ≤ 0`, `calculate_lcoe` returns exactly
0, for every CAPEX breakdown, OPEX breakdown, lifetime and discount rate. -/
theorem calculate_lcoe_nonpos_energy (capex opex : CostDict)
    (annual_energy_output : ℚ) (project_lifetime : ℕ) (discount_rate : ℚ)
    (h : annual_energy_output ≤ 0) :
    calculate_lcoe capex opex annual_energy_output project_lifetime discount_rate
      = 0 := by
  rw [calculate_lcoe, if_pos h]

/-- C8 witness: zero energy output gives LCOE 0 at a concrete input. -/
theorem calculate_lcoe_nonpos_energy_witness :
    (0 : ℚ) ≤ 0 ∧ calculate_lcoe [] [] 0 20 (8 / 100) = 0 :=
  ⟨le_refl 0, calculate_lcoe_nonpos_energy [] [] 0 20 (8 / 100) (le_refl 0)⟩

/-- C4: for positive inputs (CAPEX/OPEX totals ≥ 0 where needed, energy
output > 0, lifetime ≥ 1, discount rate ≥ 0), `calculate_lcoe` is monotone
non-decreasing in the CAPEX total and in the OPEX total with the energy output
held fixed, and monotone non-increasing in the annual energy output with the
cost dicts held fixed. -/
theorem calculate_lcoe_monotone (capex capex' opex opex' : CostDict)
    (E E' : ℚ) (n : ℕ) (r : ℚ)
    (hE : 0 < E) (hEE : E ≤ E') (hn : 1 ≤ n) (hr : 0 ≤ r) :
    (dictGet capex "Total CAPEX" ≤ dictGet capex' "Total CAPEX" →
      calculate_lcoe capex opex E n r ≤ calculate_lcoe capex' opex E n r) ∧
    (dictGet opex "Total OPEX" ≤ dictGet opex' "Total OPEX" →
      calculate_lcoe capex opex E n r ≤ calculate_lcoe capex opex' E n r) ∧
    (0 ≤ dictGet capex "Total CAPEX" → 0 ≤ dictGet opex "Total OPEX" →
      calculate_lcoe capex opex E' n r ≤ calculate_lcoe capex opex E n r) := by
  have h1r : (0 : ℚ) < 1 + r := by linarith
  have hpow : ∀ y : ℕ, (0 : ℚ) < (1 + r) ^ y := fun y => pow_pos h1r y
  have hne : (Finset.Icc 1 n).Nonempty := Finset.nonempty_Icc.mpr hn
  have hE' : 0 < E' := lt_of_lt_of_le hE hEE
  have hPE : 0 < ∑ year ∈ Finset.Icc 1 n, E / (1 + r) ^ year :=
    Finset.sum_pos (fun y _ => div_pos hE (hpow y)) hne
  have hPE' : 0 < ∑ year ∈ Finset.Icc 1 n, E' / (1 + r) ^ year :=
    Finset.sum_pos (fun y _ => div_pos hE' (hpow y)) hne
  refine ⟨?_, ?_, ?_⟩
  · intro hC
    rw [calculate_lcoe, calculate_lcoe, if_neg (not_le.mpr hE), if_neg (not_le.mpr hE)]
    simp only [if_pos hPE]
    rw [div_le_div_iff_of_pos_right hPE]
    exact add_le_add_right hC _
  · intro hO
    rw [calculate_lcoe, calculate_lcoe, if_neg (not_le.mpr hE), if_neg (not_le.mpr hE)]
    simp only [if_pos hPE]
    rw [div_le_div_iff_of_pos_right hPE]
    exact add_le_add_left
      (Finset.sum_le_sum fun y _ => (div_le_div_iff_of_pos_right (hpow y)).mpr hO) _
  · intro hC hO
    rw [calculate_lcoe, calculate_lcoe, if_neg (not_le.mpr hE), if_neg (not_le.mpr hE')]
    simp only [if_pos hPE, if_pos hPE']
    have hnum : 0 ≤ dictGet capex "Total CAPEX" +
        ∑ year ∈ Finset.Icc 1 n, dictGet opex "Total OPEX" / (1 + r) ^ year := by
      have : 0 ≤ ∑ year ∈ Finset.Icc 1 n, dictGet opex "Total OPEX" / (1 + r) ^ year :=
        Finset.sum_nonneg fun y _ => div_nonneg hO (hpow y).le
      linarith
    rw [div_le_div_iff₀ hPE' hPE]
    refine mul_le_mul_of_nonneg_left ?_ hnum
    exact Finset.sum_le_sum fun y _ => (div_le_div_iff_of_pos_right (hpow y)).mpr hEE

/-- C4 witness: the monotonicity bundle instantiated at concrete inputs. -/
theorem calculate_lcoe_monotone_witness :
    (0 : ℚ) < 1 ∧
    ((dictGet [] "Total CAPEX" ≤ dictGet [] "Total CAPEX" →
       calculate_lcoe [] [] 1 20 (8 / 100) ≤ calculate_lcoe [] [] 1 20 (8 / 100)) ∧
     (dictGet [] "Total OPEX" ≤ dictGet [] "Total OPEX" →
       calculate_lcoe [] [] 1 20 (8 / 100) ≤ calculate_lcoe [] [] 1 20 (8 / 100)) ∧
     (0 ≤ dictGet [] "Total CAPEX" → 0 ≤ dictGet [] "Total OPEX" →
       calculate_lcoe [] [] 2 20 (8 / 100) ≤ calculate_lcoe [] [] 1 20 (8 / 100))) :=
  ⟨by norm_num,
   calculate_lcoe_monotone [] [] [] [] 1 2 20 (8 / 100) (by norm_num) (by norm_num)
     (by norm_num) (by norm_num)⟩

/-! ## Financial metrics (`calculate_financial_metrics`) -/

/-- The annual debt service computed in `calculate_financial_metrics`:
annuity formula for a positive interest rate, straight-line otherwise. -/
def annual_debt_service (debt_amount debt_interest : ℚ) (debt_term : ℕ) : ℚ :=
  if 0 < debt_interest then
    debt_amount * debt_interest * (1 + debt_interest) ^ debt_term /
      ((1 + debt_interest) ^ debt_term - 1)
  else debt_amount / (debt_term : ℚ)

/-- The cash flow of one year `1 ≤ year ≤ lifetime`: revenue minus OPEX,
minus debt service while within the debt term, minus the simplified tax. -/
def annualCashFlow (annual_revenue annual_opex ads : ℚ) (debt_term : ℕ)
    (tax_rate : ℚ) (year : ℕ) : ℚ :=
  let cf := annual_revenue - annual_opex - (if year ≤ debt_term then ads else 0)
  let taxable_income := annual_revenue - annual_opex -
    (if year ≤ debt_term then ads * (3 / 10) else 0)
  let tax := max 0 (taxable_income * tax_rate)
  cf - tax

/-- The cash-flow series built by `calculate_financial_metrics`:
year 0 is the negative equity outlay, years 1..lifetime are annual flows. -/
def cashFlowsOf (capex opex : CostDict) (annual_revenue : ℚ)
    (project_lifetime : ℕ) (debt_percentage debt_interest : ℚ)
    (debt_term : ℕ) (tax_rate : ℚ) : List ℚ :=
  let total_capex := dictGet capex "Total CAPEX"
  let annual_opex := dictGet opex "Total OPEX"
  let equity_amount := total_capex * (1 - debt_percentage)
  let ads := annual_debt_service (total_capex * debt_percentage) debt_interest debt_term
  (-equity_amount) ::
    ((List.range project_lifetime).map fun i =>
      annualCashFlow annual_revenue annual_opex ads debt_term tax_rate (i + 1))

/-- Sum of `cfs[i] / (1+rate)^(start+i)` — the discounting loop body. -/
def discountedSum (cfs : List ℚ) (rate : ℚ) (start : ℕ) : ℚ :=
  match cfs with
  | [] => 0
  | c :: rest => c / (1 + rate) ^ start + discountedSum rest rate (start + 1)

/-- NPV of a cash-flow series: year-0 flow undiscounted, later flows
discounted from year 1 on. -/
def npvOf (cfs : List ℚ) (rate : ℚ) : ℚ :=
  match cfs with
  | [] => 0
  | c0 :: rest => c0 + discountedSum rest rate 1

/-- The IRR approximation loop: at most `fuel` iterations, early exit when
`|NPV| < 1`, step halved and direction reversed when the NPV sign opposes the
current direction. -/
def irrLoop (cfs : List ℚ) : ℕ → ℚ → ℚ → ℚ → ℚ
  | 0, irr, _, _ => irr
  | fuel + 1, irr, step, direction =>
    if |npvOf cfs irr| < 1 then irr
    else if npvOf cfs irr * direction < 0 then
      irrLoop cfs fuel (irr + step / 2 * -direction) (step / 2) (-direction)
    else irrLoop cfs fuel (irr + step * direction) step direction

/-- The payback loop over the year-1.. flows: returns the final cumulative
cash flow and the recorded payback year (0 when never non-negative). -/
def paybackAux : List ℚ → ℚ → ℕ → ℕ → ℚ × ℕ
  | [], cum, _, pb => (cum, pb)
  | cf :: rest, cum, year, pb =>
    let cum' := cum + cf
    let pb' := if 0 ≤ cum' ∧ pb = 0 then year else pb
    paybackAux rest cum' (year + 1) pb'

/-- The metrics dictionary returned by `calculate_financial_metrics`. -/
structure FinMetrics where
  npv : ℚ
  irr : ℚ
  payback_period : ℕ
  debt_service_coverage : PyNum
  equity_return : ℚ

/-- `calculate_financial_metrics` from `financial_calculations.py`. -/
def calculate_financial_metrics (capex opex : CostDict) (annual_revenue : ℚ)
    (project_lifetime : ℕ) (discount_rate debt_percentage debt_interest : ℚ)
    (debt_term : ℕ) (tax_rate : ℚ) : FinMetrics :=
  let total_capex := dictGet capex "Total CAPEX"
  let annual_opex := dictGet opex "Total OPEX"
  let ads := annual_debt_service (total_capex * debt_percentage) debt_interest debt_term
  let cfs := cashFlowsOf capex opex annual_revenue project_lifetime
    debt_percentage debt_interest debt_term tax_rate
  let npv := npvOf cfs discount_rate
  let irr := irrLoop cfs 20 (1 / 10) (1 / 20) 1
  let pr := paybackAux cfs.tail cfs.headI 1 0
  let payback := if pr.2 = 0 ∧ pr.1 < 0 then project_lifetime + 1 else pr.2
  { npv := npv
    irr := irr
    payback_period := payback
    debt_service_coverage :=
      if 0 < ads then PyNum.fin ((annual_revenue - annual_opex) / ads)
      else PyNum.posInf
    equity_return := irr }

/-- C5: the IRR reported by `calculate_financial_metrics` is exactly the
result of the iterative search `irrLoop` on the constructed cash-flow series,
started at rate 0.10 with step 0.05 and positive direction and a budget of 20
iterations; each iteration stops early, returning the current rate, as soon as
`|NPV| < 1`, halves the step (reversing direction) whenever the NPV sign flips
against the current search direction, and otherwise advances the rate by one
full step. -/
theorem irr_is_step_halving_search (capex opex : CostDict) (annual_revenue : ℚ)
    (project_lifetime : ℕ) (discount_rate debt_percentage debt_interest : ℚ)
    (debt_term : ℕ) (tax_rate : ℚ) :
    (calculate_financial_metrics capex opex annual_revenue project_lifetime
        discount_rate debt_percentage debt_interest debt_term tax_rate).irr =
      irrLoop (cashFlowsOf capex opex annual_revenue project_lifetime
        debt_percentage debt_interest debt_term tax_rate) 20 (1 / 10) (1 / 20) 1 ∧
    (∀ (cfs : List ℚ) (r s d : ℚ), irrLoop cfs 0 r s d = r) ∧
    (∀ (cfs : List ℚ) (fuel : ℕ) (r s d : ℚ),
      irrLoop cfs (fuel + 1) r s d =
        if |npvOf cfs r| < 1 then r
        else if npvOf cfs r * d < 0 then
          irrLoop cfs fuel (r + s / 2 * -d) (s / 2) (-d)
        else irrLoop cfs fuel (r + s * d) s d) :=
  ⟨rfl, fun _ _ _ _ => rfl, fun _ _ _ _ _ => rfl⟩

/-- C6 counterexample: for debt 700,000 at rate 0.05 over 10 years the
annual debt service computed by the code is strictly below 90,654, hence more
than 9 below the claimed value of approximately 90,663. -/
theorem annual_debt_service_example_counterexample :
    annual_debt_service 700000 (1 / 20) 10 < 90654 ∧
    90663 - annual_debt_service 700000 (1 / 20) 10 > 9 := by
  constructor <;> norm_num [annual_debt_service]

/-- C6 (amended): the annual debt service equals the amortizing-loan annuity
formula `debt × rate × (1+rate)^term / ((1+rate)^term − 1)` when the rate is
positive and `debt / term` when the rate is 0; for debt = 700,000,
rate = 0.05, term = 10 years the annual payment is approximately 90,653
(within 0.5). -/
theorem annual_debt_service_formula (debt_amount debt_interest : ℚ)
    (debt_term : ℕ) (h : 0 < debt_interest) :
    annual_debt_service debt_amount debt_interest debt_term =
      debt_amount * debt_interest * (1 + debt_interest) ^ debt_term /
        ((1 + debt_interest) ^ debt_term - 1) ∧
    annual_debt_service debt_amount 0 debt_term = debt_amount / (debt_term : ℚ) ∧
    |annual_debt_service 700000 (1 / 20) 10 - 90653| < 1 / 2 := by
  refine ⟨if_pos h, if_neg (lt_irrefl 0), ?_⟩
  rw [abs_sub_lt_iff]
  constructor <;> norm_num [annual_debt_service]

/-- C6 witness: the amended claim instantiated at the example inputs. -/
theorem annual_debt_service_formula_witness :
    (0 : ℚ) < 1 / 20 ∧
    (annual_debt_service 700000 (1 / 20) 10 =
      700000 * (1 / 20) * (1 + 1 / 20) ^ 10 / ((1 + 1 / 20) ^ 10 - 1) ∧
    annual_debt_service 700000 0 10 = 700000 / (10 : ℚ) ∧
    |annual_debt_service 700000 (1 / 20) 10 - 90653| < 1 / 2) :=
  ⟨by norm_num, annual_debt_service_formula 700000 (1 / 20) 10 (by norm_num)⟩

/-! ## Payback period: code loop versus first-crossing specification -/

/-- The payback period as the specification words it: the first year index in
`1..lifetime` at which the cumulative cash flow (partial sum of the series
from year 0) is non-negative; `lifetime + 1` when no such year exists. -/
def paybackSpec (cfs : List ℚ) (project_lifetime : ℕ) : ℕ :=
  match (List.range' 1 project_lifetime).find?
      (fun y => decide (0 ≤ (cfs.take (y + 1)).sum)) with
  | some y => y
  | none => project_lifetime + 1

/-- First-crossing search helper: the first year (counting from `year`) at
which `cum` plus a prefix of the remaining flows is non-negative. -/
def specAux : List ℚ → ℚ → ℕ → Option ℕ
  | [], _, _ => none
  | cf :: rest, cum, year =>
    if 0 ≤ cum + cf then some year else specAux rest (cum + cf) (year + 1)

theorem paybackAux_fst (l : List ℚ) : ∀ (cum : ℚ) (year pb : ℕ),
    (paybackAux l cum year pb).1 = cum + l.sum := by
  induction l with
  | nil => intro cum year pb; simp [paybackAux]
  | cons cf rest ih =>
    intro cum year pb
    simp only [paybackAux, ih, List.sum_cons]
    ring

theorem paybackAux_snd_frozen (l : List ℚ) : ∀ (cum : ℚ) (year pb : ℕ),
    pb ≠ 0 → (paybackAux l cum year pb).2 = pb := by
  induction l with
  | nil => intro cum year pb _; rfl
  | cons cf rest ih =>
    intro cum year pb hpb
    have : (if 0 ≤ cum + cf ∧ pb = 0 then year else pb) = pb := by
      simp [hpb]
    simp only [paybackAux, this]
    exact ih _ _ _ hpb

theorem paybackAux_cons (cf : ℚ) (rest : List ℚ) (cum : ℚ) (year pb : ℕ) :
    paybackAux (cf :: rest) cum year pb =
      paybackAux rest (cum + cf) (year + 1)
        (if 0 ≤ cum + cf ∧ pb = 0 then year else pb) := rfl

theorem specAux_cons (cf : ℚ) (rest : List ℚ) (cum : ℚ) (year : ℕ) :
    specAux (cf :: rest) cum year =
      if 0 ≤ cum + cf then some year else specAux rest (cum + cf) (year + 1) := rfl

theorem paybackAux_snd_eq_specAux (l : List ℚ) : ∀ (cum : ℚ) (year : ℕ),
    1 ≤ year → (paybackAux l cum year 0).2 = (specAux l cum year).getD 0 := by
  induction l with
  | nil => intro cum year _; rfl
  | cons cf rest ih =>
    intro cum year hy
    by_cases h : 0 ≤ cum + cf
    · rw [paybackAux_cons, if_pos ⟨h, rfl⟩, specAux_cons, if_pos h, Option.getD_some]
      exact paybackAux_snd_frozen rest _ _ _ (by omega)
    · rw [paybackAux_cons, if_neg (fun hh => h hh.1), specAux_cons, if_neg h]
      exact ih _ _ (by omega)

theorem specAux_some_ge (l : List ℚ) : ∀ (cum : ℚ) (year y : ℕ),
    specAux l cum year = some y → year ≤ y := by
  induction l with
  | nil => intro cum year y h; simp [specAux] at h
  | cons cf rest ih =>
    intro cum year y h
    rw [specAux] at h
    by_cases hc : 0 ≤ cum + cf
    · rw [if_pos hc] at h
      injection h with h
      omega
    · rw [if_neg hc] at h
      have := ih _ _ _ h
      omega

theorem specAux_none_neg (l : List ℚ) : ∀ (cum : ℚ) (year : ℕ),
    l ≠ [] → specAux l cum year = none → cum + l.sum < 0 := by
  induction l with
  | nil => intro cum year h _; exact absurd rfl h
  | cons cf rest ih =>
    intro cum year _ h
    rw [specAux] at h
    by_cases hc : 0 ≤ cum + cf
    · rw [if_pos hc] at h; exact absurd h (by simp)
    · rw [if_neg hc] at h
      by_cases hrest : rest = []
      · subst hrest
        simp only [List.sum_cons, List.sum_nil, add_zero]
        linarith [not_le.mp hc]
      · have := ih _ _ hrest h
        simp only [List.sum_cons]
        linarith

theorem specAux_eq_find (todo : List ℚ) : ∀ (done : List ℚ) (c0 : ℚ),
    specAux todo (c0 + done.sum) (done.length + 1) =
      (List.range' (done.length + 1) todo.length).find?
        (fun y => decide (0 ≤ c0 + ((done ++ todo).take y).sum)) := by
  induction todo with
  | nil => intro done c0; rfl
  | cons cf rest ih =>
    intro done c0
    have htake : (done ++ cf :: rest).take (done.length + 1) = done ++ [cf] := by
      rw [← List.singleton_append, ← List.append_assoc]
      exact List.take_left' (by simp)
    rw [List.length_cons, List.range'_succ]
    by_cases hc : 0 ≤ c0 + done.sum + cf
    · rw [List.find?_cons_of_pos _ (by simp [htake]; linarith)]
      rw [specAux_cons, if_pos (by linarith : (0 : ℚ) ≤ c0 + done.sum + cf)]
    · rw [List.find?_cons_of_neg _ (by simp [htake]; linarith [not_le.mp hc])]
      rw [specAux_cons, if_neg (fun h => hc (by linarith))]
      have h2 := ih (done ++ [cf]) c0
      simp only [List.append_assoc, List.singleton_append, List.sum_append,
        List.sum_cons, List.sum_nil, add_zero, List.length_append,
        List.length_singleton] at h2
      rw [← add_assoc] at h2
      exact h2

theorem specAux_eq_find_one (annual : List ℚ) (c0 : ℚ) :
    specAux annual c0 1 =
      (List.range' 1 annual.length).find?
        (fun y => decide (0 ≤ ((c0 :: annual).take (y + 1)).sum)) := by
  simp only [List.take_succ_cons, List.sum_cons]
  have h := specAux_eq_find annual [] c0
  simp only [List.nil_append, List.sum_nil, add_zero, List.length_nil, zero_add] at h
  exact h

/-- The payback computation of `calculate_financial_metrics`, on a year-0 flow
`c0` and annual flows `annual`, agrees with the first-crossing specification. -/
theorem payback_code_eq_spec (c0 : ℚ) (annual : List ℚ) (hne : annual ≠ []) :
    (if (paybackAux annual c0 1 0).2 = 0 ∧ (paybackAux annual c0 1 0).1 < 0
      then annual.length + 1 else (paybackAux annual c0 1 0).2) =
      paybackSpec (c0 :: annual) annual.length := by
  have hfst := paybackAux_fst annual c0 1 0
  have hsnd := paybackAux_snd_eq_specAux annual c0 1 (le_refl 1)
  rw [paybackSpec, ← specAux_eq_find_one annual c0]
  cases hs : specAux annual c0 1 with
  | some y =>
    have hy := specAux_some_ge annual c0 1 y hs
    rw [hs, Option.getD_some] at hsnd
    have hy0 : ¬((paybackAux annual c0 1 0).2 = 0 ∧ (paybackAux annual c0 1 0).1 < 0) := by
      rw [hsnd]; rintro ⟨h1, -⟩; omega
    rw [if_neg hy0, hsnd]
  | none =>
    rw [hs, Option.getD_none] at hsnd
    have hneg : c0 + annual.sum < 0 := specAux_none_neg annual c0 1 hne hs
    rw [if_pos ⟨hsnd, by rw [hfst]; exact hneg⟩]

/-- C3: for every project lifetime ≥ 1, the payback period reported by
`calculate_financial_metrics` equals the first year index in `1..lifetime` at
which the cumulative cash flow — starting from the negative year-0 equity
outlay — becomes non-negative, and equals `lifetime + 1` when the cumulative
cash flow never becomes non-negative within the lifetime; no exception is
raised (the embedding is a total function). -/
theorem payback_period_is_first_crossing (capex opex : CostDict)
    (annual_revenue : ℚ) (project_lifetime : ℕ)
    (discount_rate debt_percentage debt_interest : ℚ) (debt_term : ℕ)
    (tax_rate : ℚ) (hl : 1 ≤ project_lifetime) :
    (calculate_financial_metrics capex opex annual_revenue project_lifetime
        discount_rate debt_percentage debt_interest debt_term
        tax_rate).payback_period =
      paybackSpec (cashFlowsOf capex opex annual_revenue project_lifetime
        debt_percentage debt_interest debt_term tax_rate) project_lifetime := by
  have h := payback_code_eq_spec
    (-(dictGet capex "Total CAPEX" * (1 - debt_percentage)))
    ((List.range project_lifetime).map fun i =>
      annualCashFlow annual_revenue (dictGet opex "Total OPEX")
        (annual_debt_service (dictGet capex "Total CAPEX" * debt_percentage)
          debt_interest debt_term) debt_term tax_rate (i + 1))
    (List.ne_nil_of_length_pos (by simp; omega))
  rw [show ((List.range project_lifetime).map fun i =>
      annualCashFlow annual_revenue (dictGet opex "Total OPEX")
        (annual_debt_service (dictGet capex "Total CAPEX" * debt_percentage)
          debt_interest debt_term) debt_term tax_rate (i + 1)).length =
      project_lifetime from by simp] at h
  exact h

/-- C3 witness: the payback correspondence at a concrete input. -/
theorem payback_period_is_first_crossing_witness :
    1 ≤ 1 ∧
    (calculate_financial_metrics [] [] 0 1 0 0 0 1 0).payback_period =
      paybackSpec (cashFlowsOf [] [] 0 1 0 0 1 0) 1 :=
  ⟨le_refl 1, payback_period_is_first_crossing [] [] 0 1 0 0 0 1 0 (le_refl 1)⟩

/-! ## CHP unit sizing (`process_calculations.py`, `size_chp_units`) -/

/-- The fixed catalog of available CHP unit sizes, ascending. -/
def available_sizes : List ℚ := [100, 250, 500, 800, 1000, 1500, 2000]

/-- The inner `while remaining_capacity >= size * 0.8` loop: how many units of
`size` are taken before the remaining capacity drops below 80% of `size`.
The `0 < size` conjunct only records what makes the loop terminate; every
catalog size is positive, so it never changes the value at a call site. -/
def greedyCount (size r : ℚ) : ℕ :=
  if h : 0 < size ∧ 8 / 10 * size ≤ r then greedyCount size (r - size) + 1 else 0
termination_by (⌈r / size⌉).toNat
decreasing_by
  have hs : 0 < size := h.1
  have hpos : 0 < r / size := div_pos (lt_of_lt_of_le (by linarith) h.2) hs
  have hceil : (1 : ℤ) ≤ ⌈r / size⌉ := Int.ceil_pos.mpr hpos
  have hsub : ⌈(r - size) / size⌉ = ⌈r / size⌉ - 1 := by
    rw [sub_div, div_self (ne_of_gt hs), Int.ceil_sub_one]
  rw [hsub]
  omega

/-- The descending `for size in sorted(available_sizes, reverse=True)` loop:
returns the selected units and the remaining capacity. -/
def greedyPass : List ℚ → ℚ → List ℚ × ℚ
  | [], r => ([], r)
  | size :: rest, r =>
    let n := greedyCount size r
    let res := greedyPass rest (r - size * (n : ℚ))
    (List.replicate n size ++ res.1, res.2)

/-- The final `if remaining_capacity > 50` phase: append the smallest catalog
size covering the residual, when one exists. -/
def coverResidual (r : ℚ) : List ℚ × ℚ :=
  if 50 < r then
    match available_sizes.find? fun size => decide (r ≤ size) with
    | some size => ([size], 0)
    | none => ([], r)
  else ([], r)

/-- The dictionary returned by `size_chp_units`. -/
structure ChpConfig where
  chp_units : List ℚ
  number_of_units : ℕ
  total_installed_capacity_kw : ℚ
  capacity_utilization : ℚ

/-- `size_chp_units` from `process_calculations.py`. -/
def size_chp_units (power_capacity_kw : ℚ) : ChpConfig :=
  let p1 := greedyPass available_sizes.reverse power_capacity_kw
  let p2 := coverResidual p1.2
  let units := p1.1 ++ p2.1
  let total_capacity := units.sum
  { chp_units := units
    number_of_units := units.length
    total_installed_capacity_kw := total_capacity
    capacity_utilization :=
      if 0 < total_capacity then power_capacity_kw / total_capacity else 0 }

theorem greedyCount_stop (size r : ℚ) (h : ¬(0 < size ∧ 8 / 10 * size ≤ r)) :
    greedyCount size r = 0 := by
  rw [greedyCount.eq_def, dif_neg h]

theorem greedyCount_step (size r : ℚ) (h : 0 < size ∧ 8 / 10 * size ≤ r) :
    greedyCount size r = greedyCount size (r - size) + 1 := by
  rw [greedyCount.eq_def, dif_pos h]

/-- When the inner loop exits, less than 80% of a unit size is left. -/
theorem greedyCount_remainder (size : ℚ) (hs : 0 < size) :
    ∀ r : ℚ, r - size * (greedyCount size r : ℚ) < 8 / 10 * size := by
  intro r
  induction r using greedyCount.induct size with
  | case1 r h ih =>
    rw [greedyCount_step size r h]
    push_cast
    linarith [ih]
  | case2 r h =>
    rw [greedyCount_stop size r h]
    push_cast
    rcases not_and_or.mp h with h1 | h2
    · exact absurd hs h1
    · linarith [not_le.mp h2]

theorem greedyPass_nil (r : ℚ) : greedyPass [] r = ([], r) := rfl

theorem greedyPass_cons (size : ℚ) (rest : List ℚ) (r : ℚ) :
    greedyPass (size :: rest) r =
      (List.replicate (greedyCount size r) size ++
        (greedyPass rest (r - size * (greedyCount size r : ℚ))).1,
       (greedyPass rest (r - size * (greedyCount size r : ℚ))).2) := rfl

/-- The selected units plus the remaining capacity account exactly for the
target capacity. -/
theorem greedyPass_sum (sizes : List ℚ) : ∀ r : ℚ,
    (greedyPass sizes r).1.sum + (greedyPass sizes r).2 = r := by
  induction sizes with
  | nil => intro r; simp [greedyPass_nil]
  | cons size rest ih =>
    intro r
    rw [greedyPass_cons]
    simp only [List.sum_append, List.sum_replicate, nsmul_eq_mul]
    have := ih (r - size * (greedyCount size r : ℚ))
    linarith [this]

/-- After the descending pass over the full catalog, the remaining capacity is
below 80% of the smallest unit (80 kW). -/
theorem greedyPass_remainder (r : ℚ) :
    (greedyPass available_sizes.reverse r).2 < 80 := by
  have hrev : available_sizes.reverse = [2000, 1500, 1000, 800, 500, 250, 100] := rfl
  rw [hrev]
  simp only [greedyPass_cons, greedyPass_nil]
  have h := greedyCount_remainder 100 (by norm_num)
  have h100 : ∀ x : ℚ, x - 100 * (greedyCount 100 x : ℚ) < 80 := by
    intro x; linarith [h x]
  exact h100 _

/-- C9: `size_chp_units` applied to a target capacity of 0 returns an empty
unit list, a unit count of 0, a total installed capacity of 0 and a capacity
utilization of exactly 0 (no NaN, no division by zero). -/
theorem size_chp_units_zero :
    (size_chp_units 0).chp_units = [] ∧
    (size_chp_units 0).number_of_units = 0 ∧
    (size_chp_units 0).total_installed_capacity_kw = 0 ∧
    (size_chp_units 0).capacity_utilization = 0 := by
  have h0 : ∀ s : ℚ, greedyCount s 0 = 0 := fun s =>
    greedyCount_stop s 0 (by rintro ⟨h1, h2⟩; nlinarith)
  have hrev : available_sizes.reverse = [2000, 1500, 1000, 800, 500, 250, 100] := rfl
  have hpass : greedyPass available_sizes.reverse 0 = ([], 0) := by
    rw [hrev]
    simp [greedyPass_cons, greedyPass_nil, h0]
  have hcov : coverResidual 0 = ([], 0) := by
    rw [coverResidual, if_neg (by norm_num)]
  refine ⟨?_, ?_, ?_, ?_⟩ <;> simp [size_chp_units, hpass, hcov]

/-- C10: for every target power capacity ≥ 0, the total installed capacity
selected by `size_chp_units` is at least the target minus the 50 kW residual
threshold. -/
theorem size_chp_units_covers (p : ℚ) (_hp : 0 ≤ p) :
    p - 50 ≤ (size_chp_units p).total_installed_capacity_kw := by
  have hsum := greedyPass_sum available_sizes.reverse p
  have hrem := greedyPass_remainder p
  have htot : (size_chp_units p).total_installed_capacity_kw =
      (greedyPass available_sizes.reverse p).1.sum +
        (coverResidual (greedyPass available_sizes.reverse p).2).1.sum := by
    simp [size_chp_units, List.sum_append]
  rw [htot]
  by_cases hc : 50 < (greedyPass available_sizes.reverse p).2
  · have hfind : ∀ r : ℚ, r ≤ 100 →
        available_sizes.find? (fun size => decide (r ≤ size)) = some 100 := by
      intro r hr
      rw [show available_sizes = 100 :: [250, 500, 800, 1000, 1500, 2000] from rfl]
      exact List.find?_cons_of_pos _ (by simpa using hr)
    have hcov : coverResidual (greedyPass available_sizes.reverse p).2 = ([100], 0) := by
      rw [coverResidual, if_pos hc, hfind _ (by linarith)]
    rw [hcov]
    simp only [List.sum_cons, List.sum_nil, add_zero]
    linarith
  · have hcov : coverResidual (greedyPass available_sizes.reverse p).2 =
        ([], (greedyPass available_sizes.reverse p).2) := by
      rw [coverResidual, if_neg hc]
    rw [hcov]
    simp only [List.sum_nil, add_zero]
    linarith [not_lt.mp hc]

/-- C10 witness: the covering bound instantiated at target capacity 0. -/
theorem size_chp_units_covers_witness :
    (0 : ℚ) ≤ 0 ∧ (0 : ℚ) - 50 ≤ (size_chp_units 0).total_installed_capacity_kw :=
  ⟨le_refl 0, size_chp_units_covers 0 (le_refl 0)⟩

end Bioenergy
